import Mathlib

/-!
Verification of the region-aware transaction ledger service.

The Go sources are shallowly embedded: pure control flow becomes Lean
functions, outcomes of external calls (SQL driver, S3, SQS, environment)
are explicit inputs, and each handler returns the HTTP status together
with the side effects it attempted and the log lines it emitted.
-/

namespace Ledger

/-- Log severities of the zap logger calls appearing in the sources. -/
inductive LogLevel where
  | info
  | warn
  | error
deriving DecidableEq, Repr

/-- A log line: severity paired with the literal message of the call site. -/
abbrev Log := LogLevel × String

/-- models.Transaction: id and timestamp are abstracted to naturals
(UUIDs and instants are only ever compared for identity or order);
amount is the decoded string exactly as in the Go struct. -/
structure Transaction where
  id : Nat
  region : String
  amount : String
  fromAccount : String
  toAccount : String
  status : String
  timestamp : Nat
deriving DecidableEq, Repr

/-- models.TransactionRequest: the decoded POST /transactions body. -/
structure TransactionRequest where
  fromAccount : String
  toAccount : String
  amount : String
deriving DecidableEq, Repr

/-- An external side effect attempted by the ingest pipeline. -/
inductive Effect where
  | sqlInsert (tx : Transaction)
  | auditWrite (key : String)
  | queuePublish (txId : Nat) (action : String)
deriving DecidableEq, Repr

/-- Outcomes of the external calls the ingest pipeline can make:
whether the SQL insert, the audit JSON marshalling, the S3 put and the
SQS publish succeed. -/
structure CreateWorld where
  insertOk : Bool
  auditJsonOk : Bool
  auditWriteOk : Bool
  publishOk : Bool
deriving DecidableEq, Repr

/-- An HTTP response: status code and the transaction carried in the
body, when one is. -/
structure HttpResponse where
  status : Nat
  transaction : Option Transaction
deriving DecidableEq, Repr

/-- Everything observable about one run of the ingest handler. -/
structure CreateOutcome where
  response : HttpResponse
  effects : List Effect
  logs : List Log
deriving DecidableEq, Repr

/-- Handler.CreateTransaction (POST /transactions).  `body` is the JSON
decode outcome; `freshId` and `now` stand for the freshly generated UUID
and current UTC instant.  Mirrors the source: decode failure gives 400
(logged), an empty field gives 400 (not logged), an insert failure gives
500 and returns, the audit write happens only when marshalling succeeded
and its error is logged inside the S3 client, a publish failure is
warn-logged, and the response is 201 with the transaction. -/
def Handler.CreateTransaction (w : CreateWorld) (region : String)
    (freshId : Nat) (now : Nat) (body : Option TransactionRequest) :
    CreateOutcome :=
  match body with
  | none => ⟨⟨400, none⟩, [], [(.error, "Invalid request body")]⟩
  | some req =>
    if req.fromAccount = "" ∨ req.toAccount = "" ∨ req.amount = "" then
      ⟨⟨400, none⟩, [], []⟩
    else
      let tx : Transaction :=
        ⟨freshId, region, req.amount, req.fromAccount, req.toAccount,
          "pending", now⟩
      if w.insertOk then
        let auditKey :=
          "transactions/" ++ region ++ "/" ++ toString freshId ++ ".json"
        let auditEffects :=
          if w.auditJsonOk then [Effect.auditWrite auditKey] else []
        let auditLogs :=
          if w.auditJsonOk && !w.auditWriteOk then
            [((LogLevel.error : LogLevel), "Failed to write audit log to S3")]
          else []
        let publishLogs :=
          if !w.publishOk then
            [((LogLevel.warn : LogLevel), "Failed to send SQS message")]
          else []
        ⟨⟨201, some tx⟩,
          Effect.sqlInsert tx :: auditEffects ++
            [Effect.queuePublish freshId "transaction_created"],
          auditLogs ++ publishLogs⟩
      else
        ⟨⟨500, none⟩, [Effect.sqlInsert tx],
          [(.error, "Failed to create transaction")]⟩

/-! ## strconv.Atoi and the configuration loader -/

/-- The numeric value of a list of decimal digit characters, or `none`
when the list is empty or holds a non-digit. -/
def digitsVal? (l : List Char) : Option Nat :=
  if l ≠ [] ∧ l.all Char.isDigit then
    some (l.foldl (fun a c => 10 * a + (c.toNat - 48)) 0)
  else none

/-- strconv.Atoi: an optional single leading sign followed by decimal
digits, within the 64-bit signed range; anything else is an error. -/
def atoi? (s : String) : Option Int :=
  let signed : Option Int :=
    match s.data with
    | '+' :: rest => (digitsVal? rest).map (fun n => (n : Int))
    | '-' :: rest => (digitsVal? rest).map (fun n => -(n : Int))
    | l => (digitsVal? l).map (fun n => (n : Int))
  signed.bind (fun v =>
    if -(2 ^ 63) ≤ v ∧ v ≤ 2 ^ 63 - 1 then some v else none)

/-- An environment, as os.Getenv sees it: unset variables read as "". -/
abbrev Env := String → String

/-- config.getEnv: the variable when non-empty, the default otherwise. -/
def getEnv (env : Env) (key defaultValue : String) : String :=
  if env key ≠ "" then env key else defaultValue

/-- config.getEnvInt: the parsed variable when non-empty and Atoi
succeeds, the default otherwise. -/
def getEnvInt (env : Env) (key : String) (defaultValue : Int) : Int :=
  if env key ≠ "" then
    match atoi? (env key) with
    | some v => v
    | none => defaultValue
  else defaultValue

/-- config.AppConfig. -/
structure AppConfig where
  port : Int
  region : String
deriving DecidableEq, Repr

/-- config.DatabaseConfig. -/
structure DatabaseConfig where
  host : String
  port : Int
  database : String
deriving DecidableEq, Repr

/-- config.AWSConfig. -/
structure AWSConfig where
  region : String
  endpoint : String
  s3Bucket : String
  sqsQueue : String
deriving DecidableEq, Repr

/-- config.Config. -/
structure Config where
  app : AppConfig
  database : DatabaseConfig
  aws : AWSConfig
deriving DecidableEq, Repr

/-- config.LoadConfig: every field from the environment with its
default; there is no failure path. -/
def LoadConfig (env : Env) : Config :=
  { app := { port := getEnvInt env "APP_PORT" 8080
             region := getEnv env "REGION" "us-east-1" }
    database := { host := getEnv env "COCKROACHDB_HOST" "cockroachdb-public"
                  port := getEnvInt env "COCKROACHDB_PORT" 26257
                  database := getEnv env "COCKROACHDB_DATABASE" "ledger" }
    aws := { region := getEnv env "AWS_REGION" "us-east-1"
             endpoint := getEnv env "AWS_ENDPOINT" "http://localhost:4566"
             s3Bucket := getEnv env "S3_BUCKET" "us-east-1-audit-logs"
             sqsQueue := getEnv env "SQS_QUEUE" "us-east-1-transaction-queue" } }

/-! ## The SQL store: GetById and List -/

/-- The two error shapes DB.GetTransaction and DB.ListTransactions
return: the not-found wrap for sql.ErrNoRows, and the driver-error wrap
otherwise.  The constructors mirror the two distinct fmt.Errorf calls. -/
inductive StoreErr where
  | notFound (msg : String)
  | storageFailure (msg : String)
deriving DecidableEq, Repr

/-- What the driver reports for the single-row lookup. -/
inductive ScanOutcome where
  | found (tx : Transaction)
  | noRows
  | driverFailure (msg : String)
deriving DecidableEq, Repr

/-- DB.GetTransaction: the row, or the not-found error on
sql.ErrNoRows, or the wrapped driver error otherwise. -/
def DB.GetTransaction (id : Nat) (scan : ScanOutcome) :
    Except StoreErr Transaction :=
  match scan with
  | .found tx => .ok tx
  | .noRows => .error (.notFound ("transaction not found: " ++ toString id))
  | .driverFailure m =>
      .error (.storageFailure ("failed to get transaction: " ++ m))

/-- Handler.GetTransaction (GET /transactions/id): 400 when the path
segment fails UUID parsing (the parse outcome is the input), 200 with
the row on success, and 404 on any lookup error. -/
def Handler.GetTransaction (parsedId : Option Nat) (scan : ScanOutcome) :
    HttpResponse :=
  match parsedId with
  | none => ⟨400, none⟩
  | some id =>
    match DB.GetTransaction id scan with
    | .ok tx => ⟨200, some tx⟩
    | .error _ => ⟨404, none⟩

/-- A row of the transactions table as the List query sees it:
the decoded entity together with whether rows.Scan succeeds on it. -/
structure Row where
  tx : Transaction
  scannable : Bool
deriving DecidableEq, Repr

/-- Insert a row into a list kept in descending timestamp order. -/
def insertByTimestampDesc (x : Row) : List Row → List Row
  | [] => [x]
  | y :: ys =>
    if y.tx.timestamp ≤ x.tx.timestamp then x :: y :: ys
    else y :: insertByTimestampDesc x ys

/-- ORDER BY timestamp DESC, realized as an insertion sort. -/
def sortByTimestampDesc (l : List Row) : List Row :=
  l.foldr insertByTimestampDesc []

/-- The row window the query returns:
ORDER BY timestamp DESC LIMIT limit OFFSET offset. -/
def queryWindow (table : List Row) (limit offset : Nat) : List Row :=
  ((sortByTimestampDesc table).drop offset).take limit

/-- The rows.Next/rows.Scan loop of DB.ListTransactions: a scannable row
is appended, a scan failure is logged at error level and skipped. -/
def scanPass (rows : List Row) : List Transaction × List Log :=
  rows.foldr
    (fun r acc =>
      if r.scannable then (r.tx :: acc.1, acc.2)
      else (acc.1, ((LogLevel.error : LogLevel),
        "Failed to scan transaction") :: acc.2))
    ([], [])

/-- DB.ListTransactions: run the window query, scan with per-row skip,
then check rows.Err — a terminal iteration error fails the whole call. -/
def DB.ListTransactions (table : List Row) (limit offset : Nat)
    (iterErr : Option String) : Except StoreErr (List Transaction) × List Log :=
  let scanned := scanPass (queryWindow table limit offset)
  match iterErr with
  | some m =>
      (.error (.storageFailure ("error iterating transactions: " ++ m)),
        scanned.2)
  | none => (.ok scanned.1, scanned.2)

/-! ## The list handler's pagination -/

/-- Handler.ListTransactions: the effective limit.  A missing parameter
reads as ""; a parse failure or an out-of-range value keeps 50. -/
def effectiveLimit (limitStr : String) : Int :=
  if limitStr ≠ "" then
    match atoi? limitStr with
    | some parsed => if 0 < parsed ∧ parsed ≤ 100 then parsed else 50
    | none => 50
  else 50

/-- Handler.ListTransactions: the effective offset.  A missing parameter
reads as ""; a parse failure or a negative value keeps 0. -/
def effectiveOffset (offsetStr : String) : Int :=
  if offsetStr ≠ "" then
    match atoi? offsetStr with
    | some parsed => if 0 ≤ parsed then parsed else 0
    | none => 0
  else 0

/-- Handler.ListTransactions (GET /transactions): status and the
pagination values handed to the store.  The only failure path is the
store call: pagination strings never produce an error response. -/
def Handler.ListTransactions (limitStr offsetStr : String) (dbOk : Bool) :
    Nat × Int × Int :=
  (if dbOk then 200 else 500, effectiveLimit limitStr,
    effectiveOffset offsetStr)

/-! ## The composite health handler -/

/-- Outcomes of the three dependency probes, in the order the handler
makes them. -/
structure Probes where
  dbOk : Bool
  s3Ok : Bool
  sqsOk : Bool
deriving DecidableEq, Repr

/-- One run of Handler.Health: the status, the JSON body as the ordered
key/value pairs the handler put into its map, and the names of the
dependencies actually probed (in probe order). -/
structure HealthOutcome where
  status : Nat
  body : List (String × String)
  probed : List String
deriving DecidableEq, Repr

/-- Handler.Health (GET /health): probe database, then S3, then SQS;
return 503 naming the first failing dependency without probing the
later ones; 200 with per-dependency status when all pass. -/
def Handler.Health (region : String) (p : Probes) : HealthOutcome :=
  if p.dbOk then
    if p.s3Ok then
      if p.sqsOk then
        ⟨200, [("status", "healthy"), ("region", region),
          ("database", "healthy"), ("s3", "healthy"), ("sqs", "healthy")],
          ["database", "s3", "sqs"]⟩
      else
        ⟨503, [("status", "unhealthy"), ("region", region),
          ("database", "healthy"), ("s3", "healthy"), ("sqs", "unhealthy")],
          ["database", "s3", "sqs"]⟩
    else
      ⟨503, [("status", "unhealthy"), ("region", region),
        ("database", "healthy"), ("s3", "unhealthy")],
        ["database", "s3"]⟩
  else
    ⟨503, [("status", "unhealthy"), ("region", region),
      ("database", "unhealthy")],
      ["database"]⟩

/-! ## The object-store bootstrap -/

/-- Outcomes of the S3 calls ensureBucket can make: the initial
HeadBucket, the CreateBucket, and the second HeadBucket; the create
error message is carried so the propagated failure can be inspected. -/
structure BucketWorld where
  head1Ok : Bool
  createOk : Bool
  head2Ok : Bool
  createErr : String
deriving DecidableEq, Repr

/-- The S3 API calls ensureBucket issues, in order. -/
inductive S3Call where
  | headBucket
  | createBucket
deriving DecidableEq, Repr

/-- s3.ensureBucket: HEAD; if it succeeds, done.  Otherwise CREATE; if
that errs, HEAD again — success if the bucket now exists, otherwise the
wrapped CREATE error.  The second component is the trace of calls. -/
def ensureBucket (w : BucketWorld) : Except String Unit × List S3Call :=
  if w.head1Ok then (.ok (), [.headBucket])
  else if w.createOk then (.ok (), [.headBucket, .createBucket])
  else if w.head2Ok then
    (.ok (), [.headBucket, .createBucket, .headBucket])
  else
    (.error ("failed to create bucket: " ++ w.createErr),
      [.headBucket, .createBucket, .headBucket])

/-! ## The queue adapter's receive and the consumer loop -/

/-- sqs.Message: the JSON body of a queue message. -/
structure SqsMessage where
  transactionID : String
  region : String
  action : String
  timestamp : Nat
  data : String
deriving DecidableEq, Repr

/-- A message as the wire delivers it to ReceiveMessages: its id, the
outcome of json.Unmarshal on its body, and its receipt handle. -/
structure RawSqsMessage where
  messageId : String
  decodedBody : Option SqsMessage
  receiptHandle : String
deriving DecidableEq, Repr

/-- The decode loop of Client.ReceiveMessages: a decoded body is
appended, an undecodable one is warn-logged and skipped. -/
def collectDecoded (raws : List RawSqsMessage) :
    List SqsMessage × List Log :=
  raws.foldr
    (fun r acc =>
      match r.decodedBody with
      | some m => (m :: acc.1, acc.2)
      | none => (acc.1, ((LogLevel.warn : LogLevel),
          "Failed to unmarshal message") :: acc.2))
    ([], [])

/-- Client.ReceiveMessages: a wire error fails the call; otherwise the
return value is the bare list of decoded message bodies — the receipt
handles of the raw messages do not appear in it. -/
def Client.ReceiveMessages (recv : Except String (List RawSqsMessage)) :
    Except String (List SqsMessage) × List Log :=
  match recv with
  | .error m =>
      (.error ("failed to receive messages: " ++ m),
        [(.error, "Failed to receive messages from SQS")])
  | .ok raws =>
      let collected := collectDecoded raws
      (.ok collected.1, collected.2)

/-- Modelled from the spec: the envelope the queue adapter's receive
operation returns, pairing the decoded message body with its receipt
handle.  The adapter version returning it is missing from the available
sources — only its tests and its caller (the consumer loop) are present,
and the retained Client.ReceiveMessages returns bare bodies instead. -/
structure ReceivedMessage where
  message : SqsMessage
  receiptHandle : String
deriving DecidableEq, Repr

/-- An observable event of one consumer-loop iteration: a
delete-by-receipt-handle attempt, or a log line. -/
inductive ConsumerEvent where
  | deleteAttempt (receiptHandle : String)
  | logged (lvl : LogLevel) (msg : String)
deriving DecidableEq, Repr

/-- Whether an event is a delete attempt. -/
def isDeleteAttempt : ConsumerEvent → Bool
  | .deleteAttempt _ => true
  | .logged _ _ => false

/-- The per-message body of processSQSMessages: log, dispatch on the
action tag (both branches mark the message processed), then attempt the
delete; a delete failure is logged at error level and nothing else
happens to the message. -/
def processOneMessage (deleteOk : String → Bool) (m : ReceivedMessage) :
    List ConsumerEvent :=
  let header := [ConsumerEvent.logged .info "Processing SQS message"]
  let dispatch :=
    if m.message.action = "transaction_created" then
      [ConsumerEvent.logged .info "Transaction created message processed"]
    else
      [ConsumerEvent.logged .info "Unknown action"]
  let deletion :=
    if deleteOk m.receiptHandle then
      [ConsumerEvent.deleteAttempt m.receiptHandle,
        ConsumerEvent.logged .info "SQS message deleted after processing"]
    else
      [ConsumerEvent.deleteAttempt m.receiptHandle,
        ConsumerEvent.logged .error
          "Failed to delete SQS message after processing"]
  header ++ dispatch ++ deletion

/-- One tick of processSQSMessages over a received batch. -/
def processSQSMessages (deleteOk : String → Bool)
    (batch : List ReceivedMessage) : List ConsumerEvent :=
  batch.flatMap (processOneMessage deleteOk)

/-! ## Theorems -/

/-- C1: the claim says a POST /transactions body whose amount is not a
strictly positive decimal string (such as "0") gets 400 with no side
effects.  The handler contradicts it: with every external call
succeeding, the body from "a" to "b" with amount "0" passes the
only validation the handler performs (non-emptiness), the SQL insert is
executed, and the response is 201 — the repository's own tests demand
400 here, so this run exhibits the divergence. -/
theorem createTransaction_accepts_zero_amount :
    (Handler.CreateTransaction ⟨true, true, true, true⟩ "us-east-1" 1 0
        (some ⟨"a", "b", "0"⟩)).response.status = 201 ∧
    Effect.sqlInsert ⟨1, "us-east-1", "0", "a", "b", "pending", 0⟩ ∈
      (Handler.CreateTransaction ⟨true, true, true, true⟩ "us-east-1" 1 0
        (some ⟨"a", "b", "0"⟩)).effects := by
  decide

/-- C2: for a validated POST /transactions request, an insert failure
yields 500 with neither an audit write nor a queue publish attempted;
an insert success yields 201 carrying the transaction whatever the audit
and publish outcomes, a failed audit write showing up only as an
error-level log and a failed publish only as a warn-level log. -/
theorem createTransaction_partial_failure_policy (w : CreateWorld)
    (region : String) (freshId now : Nat) (req : TransactionRequest)
    (hf : req.fromAccount ≠ "") (ht : req.toAccount ≠ "")
    (ha : req.amount ≠ "") :
    (w.insertOk = false →
      (Handler.CreateTransaction w region freshId now
        (some req)).response.status = 500 ∧
      (∀ k, Effect.auditWrite k ∉
        (Handler.CreateTransaction w region freshId now (some req)).effects) ∧
      (∀ i a, Effect.queuePublish i a ∉
        (Handler.CreateTransaction w region freshId now (some req)).effects)) ∧
    (w.insertOk = true →
      (Handler.CreateTransaction w region freshId now
        (some req)).response.status = 201 ∧
      (Handler.CreateTransaction w region freshId now
        (some req)).response.transaction =
        some ⟨freshId, region, req.amount, req.fromAccount, req.toAccount,
          "pending", now⟩ ∧
      (w.auditJsonOk = true → w.auditWriteOk = false →
        ((LogLevel.error : LogLevel), "Failed to write audit log to S3") ∈
          (Handler.CreateTransaction w region freshId now (some req)).logs) ∧
      (w.publishOk = false →
        ((LogLevel.warn : LogLevel), "Failed to send SQS message") ∈
          (Handler.CreateTransaction w region freshId now (some req)).logs)) := by
  obtain ⟨io, jo, ao, po⟩ := w
  cases io <;> cases jo <;> cases ao <;> cases po <;>
    simp [Handler.CreateTransaction, hf, ht, ha]

/-- Witness for C2 at a concrete validated request with the insert
succeeding, the audit write failing and the publish failing. -/
theorem createTransaction_partial_failure_policy_witness :
    (((⟨true, true, false, false⟩ : CreateWorld).insertOk = false →
      (Handler.CreateTransaction ⟨true, true, false, false⟩ "us-east-1" 1 2
        (some ⟨"a", "b", "100.50"⟩)).response.status = 500 ∧
      (∀ k, Effect.auditWrite k ∉
        (Handler.CreateTransaction ⟨true, true, false, false⟩ "us-east-1" 1 2
          (some ⟨"a", "b", "100.50"⟩)).effects) ∧
      (∀ i a, Effect.queuePublish i a ∉
        (Handler.CreateTransaction ⟨true, true, false, false⟩ "us-east-1" 1 2
          (some ⟨"a", "b", "100.50"⟩)).effects)) ∧
    (((⟨true, true, false, false⟩ : CreateWorld)).insertOk = true →
      (Handler.CreateTransaction ⟨true, true, false, false⟩ "us-east-1" 1 2
        (some ⟨"a", "b", "100.50"⟩)).response.status = 201 ∧
      (Handler.CreateTransaction ⟨true, true, false, false⟩ "us-east-1" 1 2
        (some ⟨"a", "b", "100.50"⟩)).response.transaction =
        some ⟨1, "us-east-1", "100.50", "a", "b", "pending", 2⟩ ∧
      (((⟨true, true, false, false⟩ : CreateWorld)).auditJsonOk = true →
        ((⟨true, true, false, false⟩ : CreateWorld)).auditWriteOk = false →
        ((LogLevel.error : LogLevel), "Failed to write audit log to S3") ∈
          (Handler.CreateTransaction ⟨true, true, false, false⟩ "us-east-1" 1 2
            (some ⟨"a", "b", "100.50"⟩)).logs) ∧
      (((⟨true, true, false, false⟩ : CreateWorld)).publishOk = false →
        ((LogLevel.warn : LogLevel), "Failed to send SQS message") ∈
          (Handler.CreateTransaction ⟨true, true, false, false⟩ "us-east-1" 1 2
            (some ⟨"a", "b", "100.50"⟩)).logs))) := by
  exact createTransaction_partial_failure_policy ⟨true, true, false, false⟩
    "us-east-1" 1 2 ⟨"a", "b", "100.50"⟩ (by decide) (by decide) (by decide)

/-- A string Atoi accepts is not empty. -/
theorem atoi?_ne_empty {s : String} {n : Int} (h : atoi? s = some n) :
    s ≠ "" := by
  intro he
  rw [he] at h
  have h0 : atoi? "" = none := by decide
  rw [h0] at h
  cases h

/-- C4 counterexample: the claim says the response is 404 exactly when
the store reports NotFound.  With a valid UUID and the driver failing
with a non-NotFound error, the store reports the distinct
StorageFailure wrap — yet the handler still responds 404. -/
theorem getTransaction_404_on_driver_error :
    (Handler.GetTransaction (some 7)
      (.driverFailure "connection reset")).status = 404 ∧
    DB.GetTransaction 7 (.driverFailure "connection reset") =
      .error (.storageFailure
        "failed to get transaction: connection reset") := by
  exact ⟨rfl, rfl⟩

/-- C4 (amended): a non-UUID path segment yields 400; a found row yields
200; the store distinguishes NotFound (for no matching row) from the
StorageFailure wrap of any other driver error, but the handler maps
every lookup error — NotFound or StorageFailure alike — to 404. -/
theorem getTransaction_status_mapping (id : Nat) (msg : String)
    (tx : Transaction) :
    (∀ scan, Handler.GetTransaction none scan = ⟨400, none⟩) ∧
    Handler.GetTransaction (some id) (.found tx) = ⟨200, some tx⟩ ∧
    (Handler.GetTransaction (some id) .noRows = ⟨404, none⟩ ∧
      DB.GetTransaction id .noRows =
        .error (.notFound ("transaction not found: " ++ toString id))) ∧
    (Handler.GetTransaction (some id) (.driverFailure msg) = ⟨404, none⟩ ∧
      DB.GetTransaction id (.driverFailure msg) =
        .error (.storageFailure ("failed to get transaction: " ++ msg))) := by
  exact ⟨fun scan => rfl, rfl, ⟨rfl, rfl⟩, ⟨rfl, rfl⟩⟩

/-- C5: an integer limit in 1..100 is honored and every other limit
string (out of range, negative, non-integer) silently becomes 50; an
integer offset is honored when non-negative and every other offset
string becomes 0; the boundary values of the spec behave as listed; and
the list handler's status is never 400, whatever the pagination
strings. -/
theorem listTransactions_pagination (limitStr offsetStr : String)
    (n : Int) (dbOk : Bool) :
    (atoi? limitStr = some n →
      effectiveLimit limitStr = if 1 ≤ n ∧ n ≤ 100 then n else 50) ∧
    (atoi? limitStr = none → effectiveLimit limitStr = 50) ∧
    (atoi? offsetStr = some n →
      effectiveOffset offsetStr = if 0 ≤ n then n else 0) ∧
    (atoi? offsetStr = none → effectiveOffset offsetStr = 0) ∧
    effectiveLimit "-1" = 50 ∧ effectiveLimit "0" = 50 ∧
    effectiveLimit "101" = 50 ∧ effectiveLimit "200" = 50 ∧
    effectiveLimit "abc" = 50 ∧ effectiveLimit "100" = 100 ∧
    effectiveOffset "-1" = 0 ∧ effectiveOffset "xyz" = 0 ∧
    (Handler.ListTransactions limitStr offsetStr dbOk).1 ≠ 400 := by
  refine ⟨?_, ?_, ?_, ?_, by decide, by decide, by decide, by decide,
    by decide, by decide, by decide, by decide, ?_⟩
  · intro h
    have hs := atoi?_ne_empty h
    simp only [effectiveLimit, hs, if_true, ne_eq, not_false_eq_true, h]
    split_ifs <;> omega
  · intro h
    simp only [effectiveLimit, h]
    split <;> rfl
  · intro h
    have hs := atoi?_ne_empty h
    simp only [effectiveOffset, hs, if_true, ne_eq, not_false_eq_true, h]
  · intro h
    simp only [effectiveOffset, h]
    split <;> rfl
  · cases dbOk <;> simp [Handler.ListTransactions]

/-- Witness for C5: limit "7" is honored as 7, offset "7" as 7, and the
status with those strings is not 400. -/
theorem listTransactions_pagination_witness :
    effectiveLimit "7" = 7 ∧ effectiveOffset "7" = 7 ∧
    (Handler.ListTransactions "7" "7" true).1 ≠ 400 := by
  obtain ⟨hl, -, ho, -, -, -, -, -, -, -, -, -, hs⟩ :=
    listTransactions_pagination "7" "7" 7 true
  exact ⟨(hl (by decide)).trans (by decide),
    (ho (by decide)).trans (by decide), hs⟩

/-- C6: /health returns 200 exactly when the three probes (database,
S3, SQS, in that order) all succeed; on the first failure it stops —
the later dependencies are not probed — and responds 503 with the
failing dependency marked unhealthy in the body. -/
theorem health_composite (region : String) (p : Probes) :
    ((Handler.Health region p).status = 200 ↔
      p.dbOk = true ∧ p.s3Ok = true ∧ p.sqsOk = true) ∧
    (p.dbOk = false →
      (Handler.Health region p).probed = ["database"] ∧
      (Handler.Health region p).status = 503 ∧
      ("database", "unhealthy") ∈ (Handler.Health region p).body) ∧
    (p.dbOk = true → p.s3Ok = false →
      (Handler.Health region p).probed = ["database", "s3"] ∧
      "sqs" ∉ (Handler.Health region p).probed ∧
      (Handler.Health region p).status = 503 ∧
      ("s3", "unhealthy") ∈ (Handler.Health region p).body) ∧
    (p.dbOk = true → p.s3Ok = true → p.sqsOk = false →
      (Handler.Health region p).status = 503 ∧
      ("sqs", "unhealthy") ∈ (Handler.Health region p).body) := by
  obtain ⟨d, s, q⟩ := p
  cases d <;> cases s <;> cases q <;>
    simp [Handler.Health]

/-- Witness for C6: with the database and S3 healthy and SQS failing,
the status is 503 and the body names sqs unhealthy. -/
theorem health_composite_witness :
    (Handler.Health "us-east-1" ⟨true, true, false⟩).status = 503 ∧
    ("sqs", "unhealthy") ∈
      (Handler.Health "us-east-1" ⟨true, true, false⟩).body := by
  obtain ⟨-, -, -, hq⟩ := health_composite "us-east-1" ⟨true, true, false⟩
  exact hq rfl rfl rfl

/-- C8: ensure-bucket succeeds without a CREATE when the first HEAD
succeeds; otherwise it attempts the CREATE; and when the CREATE errs it
HEADs a second time, succeeding if the bucket now exists and otherwise
propagating the wrapped CREATE error. -/
theorem ensureBucket_bootstrap (w : BucketWorld) :
    (w.head1Ok = true → ensureBucket w = (.ok (), [.headBucket])) ∧
    (w.head1Ok = false → S3Call.createBucket ∈ (ensureBucket w).2) ∧
    (w.head1Ok = false → w.createOk = false →
      (ensureBucket w).2 = [.headBucket, .createBucket, .headBucket] ∧
      (w.head2Ok = true → (ensureBucket w).1 = .ok ()) ∧
      (w.head2Ok = false →
        (ensureBucket w).1 =
          .error ("failed to create bucket: " ++ w.createErr))) := by
  obtain ⟨h1, c, h2, e⟩ := w
  cases h1 <;> cases c <;> cases h2 <;> simp [ensureBucket]

/-- Witness for C8: both HEADs and the CREATE failing, the call traces
HEAD, CREATE, HEAD and fails with the wrapped CREATE error. -/
theorem ensureBucket_bootstrap_witness :
    (ensureBucket ⟨false, false, false, "boom"⟩).2 =
      [.headBucket, .createBucket, .headBucket] ∧
    (ensureBucket ⟨false, false, false, "boom"⟩).1 =
      .error ("failed to create bucket: " ++ "boom") := by
  obtain ⟨-, -, h⟩ := ensureBucket_bootstrap ⟨false, false, false, "boom"⟩
  obtain ⟨ht, -, he⟩ := h rfl rfl
  exact ⟨ht, he rfl⟩

/-- Membership in an insertion step of the timestamp sort. -/
theorem mem_insertByTimestampDesc {x a : Row} {l : List Row} :
    a ∈ insertByTimestampDesc x l ↔ a = x ∨ a ∈ l := by
  induction l with
  | nil => simp [insertByTimestampDesc]
  | cons y ys ih =>
    simp only [insertByTimestampDesc]
    split
    · simp [List.mem_cons]
    · simp only [List.mem_cons, ih]
      tauto

/-- Inserting into a descending-by-timestamp list keeps it descending. -/
theorem pairwise_insertByTimestampDesc {x : Row} {l : List Row}
    (h : l.Pairwise (fun a b => b.tx.timestamp ≤ a.tx.timestamp)) :
    (insertByTimestampDesc x l).Pairwise
      (fun a b => b.tx.timestamp ≤ a.tx.timestamp) := by
  induction l with
  | nil => simp [insertByTimestampDesc]
  | cons y ys ih =>
    rw [List.pairwise_cons] at h
    obtain ⟨hy, hys⟩ := h
    simp only [insertByTimestampDesc]
    split
    · rename_i hxy
      refine List.pairwise_cons.mpr ⟨?_, List.pairwise_cons.mpr ⟨hy, hys⟩⟩
      intro b hb
      rcases List.mem_cons.mp hb with rfl | hb
      · exact hxy
      · exact le_trans (hy b hb) hxy
    · rename_i hxy
      refine List.pairwise_cons.mpr ⟨?_, ih hys⟩
      intro b hb
      rcases mem_insertByTimestampDesc.mp hb with rfl | hb
      · exact (not_le.mp hxy).le
      · exact hy b hb

/-- The ORDER BY timestamp DESC sort is descending by timestamp. -/
theorem pairwise_sortByTimestampDesc (l : List Row) :
    (sortByTimestampDesc l).Pairwise
      (fun a b => b.tx.timestamp ≤ a.tx.timestamp) := by
  induction l with
  | nil => simp [sortByTimestampDesc]
  | cons x xs ih => exact pairwise_insertByTimestampDesc ih

/-- The scan loop returns exactly the scannable rows, in order. -/
theorem scanPass_fst (rows : List Row) :
    (scanPass rows).1 = (rows.filter (fun r => r.scannable)).map Row.tx := by
  induction rows with
  | nil => rfl
  | cons r rs ih =>
    cases hr : r.scannable <;>
      simp [scanPass, List.filter_cons, hr, ← ih, List.foldr]

/-- The scan loop emits one error-level log per unscannable row. -/
theorem scanPass_snd (rows : List Row) :
    (scanPass rows).2 = (rows.filter (fun r => !r.scannable)).map
      (fun _ => ((LogLevel.error : LogLevel),
        "Failed to scan transaction")) := by
  induction rows with
  | nil => rfl
  | cons r rs ih =>
    cases hr : r.scannable <;>
      simp [scanPass, List.filter_cons, hr, ← ih, List.foldr]

/-- C7 counterexample: the claim says a skipped row is logged at warn
level.  With a window holding one unscannable row and one scannable
row, the call still returns the surviving row but the skip log is at
error level — there is no warn entry. -/
theorem listTransactions_skip_logged_at_error_level :
    DB.ListTransactions
        [⟨⟨1, "us-east-1", "1", "a", "b", "pending", 10⟩, false⟩,
         ⟨⟨2, "us-east-1", "2", "a", "b", "pending", 5⟩, true⟩] 50 0 none =
      (.ok [⟨2, "us-east-1", "2", "a", "b", "pending", 5⟩],
        [((LogLevel.error : LogLevel), "Failed to scan transaction")]) ∧
    ((LogLevel.warn : LogLevel), "Failed to scan transaction") ∉
      (DB.ListTransactions
        [⟨⟨1, "us-east-1", "1", "a", "b", "pending", 10⟩, false⟩,
         ⟨⟨2, "us-east-1", "2", "a", "b", "pending", 5⟩, true⟩] 50 0 none).2 := by
  exact ⟨rfl, by decide⟩

/-- C7 (amended): the rows List returns are ordered by timestamp
descending; a per-row scan failure skips only the offending row — each
skip emitting an error-level log — while the surviving rows of the
window are still returned; and a terminal iteration error fails the
whole call with the StorageFailure wrap. -/
theorem listTransactions_order_and_failures (table : List Row)
    (limit offset : Nat) (m : String) :
    (DB.ListTransactions table limit offset none).1 =
      .ok (((queryWindow table limit offset).filter
        (fun r => r.scannable)).map Row.tx) ∧
    (DB.ListTransactions table limit offset none).2 =
      ((queryWindow table limit offset).filter
        (fun r => !r.scannable)).map
        (fun _ => ((LogLevel.error : LogLevel),
          "Failed to scan transaction")) ∧
    (((queryWindow table limit offset).filter
        (fun r => r.scannable)).map Row.tx).Pairwise
      (fun a b => b.timestamp ≤ a.timestamp) ∧
    (DB.ListTransactions table limit offset (some m)).1 =
      .error (.storageFailure ("error iterating transactions: " ++ m)) := by
  refine ⟨?_, ?_, ?_, rfl⟩
  · simp [DB.ListTransactions, scanPass_fst]
  · simp [DB.ListTransactions, scanPass_snd]
  · have hsorted := pairwise_sortByTimestampDesc table
    have hwindow : (queryWindow table limit offset).Pairwise
        (fun a b => b.tx.timestamp ≤ a.tx.timestamp) :=
      hsorted.sublist
        ((List.take_sublist _ _).trans (List.drop_sublist _ _))
    have hfiltered : ((queryWindow table limit offset).filter
        (fun r => r.scannable)).Pairwise
        (fun a b => b.tx.timestamp ≤ a.tx.timestamp) :=
      hwindow.sublist (List.filter_sublist _)
    exact List.pairwise_map.mpr hfiltered

/-- C9: every message of a received batch is marked for delete exactly
once, whatever its action tag — transaction_created is acknowledged,
any other action is logged as unknown but still deleted — and when the
delete fails the only further event is an error-level log, leaving the
message for redelivery. -/
theorem consumer_marks_every_message_for_delete (deleteOk : String → Bool)
    (batch : List ReceivedMessage) (m : ReceivedMessage) (hm : m ∈ batch) :
    ConsumerEvent.deleteAttempt m.receiptHandle ∈
      processSQSMessages deleteOk batch ∧
    (processOneMessage deleteOk m).filter isDeleteAttempt =
      [ConsumerEvent.deleteAttempt m.receiptHandle] ∧
    (deleteOk m.receiptHandle = false →
      ConsumerEvent.logged .error
          "Failed to delete SQS message after processing" ∈
        processOneMessage deleteOk m ∧
      ∀ e ∈ processOneMessage deleteOk m, isDeleteAttempt e = false →
        ∃ lvl msg, e = ConsumerEvent.logged lvl msg) := by
  refine ⟨?_, ?_, ?_⟩
  · apply List.mem_flatMap.mpr
    refine ⟨m, hm, ?_⟩
    by_cases ha : m.message.action = "transaction_created" <;>
      cases hd : deleteOk m.receiptHandle <;>
        simp [processOneMessage, ha, hd]
  · by_cases ha : m.message.action = "transaction_created" <;>
      cases hd : deleteOk m.receiptHandle <;>
        simp [processOneMessage, ha, hd, isDeleteAttempt]
  · intro hd
    by_cases ha : m.message.action = "transaction_created" <;>
      simp [processOneMessage, ha, hd, isDeleteAttempt]

/-- Witness for C9: a single-message batch whose action is unknown and
whose delete fails is still marked for delete, and the failure shows up
as an error-level log. -/
theorem consumer_marks_every_message_for_delete_witness :
    ConsumerEvent.deleteAttempt "rh-1" ∈
      processSQSMessages (fun _ => false)
        [⟨⟨"tx-9", "us-east-1", "mystery_action", 0, "d"⟩, "rh-1"⟩] ∧
    ConsumerEvent.logged .error
        "Failed to delete SQS message after processing" ∈
      processOneMessage (fun _ => false)
        ⟨⟨"tx-9", "us-east-1", "mystery_action", 0, "d"⟩, "rh-1"⟩ := by
  obtain ⟨hdel, -, hfail⟩ :=
    consumer_marks_every_message_for_delete (fun _ => false)
      [⟨⟨"tx-9", "us-east-1", "mystery_action", 0, "d"⟩, "rh-1"⟩]
      ⟨⟨"tx-9", "us-east-1", "mystery_action", 0, "d"⟩, "rh-1"⟩
      (List.mem_singleton.mpr rfl)
  exact ⟨hdel, (hfail rfl).1⟩

/-- C3: the claim says each envelope the queue adapter's receive returns
pairs the decoded body with its receipt handle.  The retained adapter
contradicts it: on a batch with one well-formed and one undecodable
message it returns the bare decoded body — the receipt handles appear
nowhere in the return value — while the undecodable message is
warn-logged and dropped.  The adapter's own tests and its caller (the
consumer loop) both require the envelope pairing. -/
theorem receiveMessages_returns_bare_bodies :
    Client.ReceiveMessages (.ok
      [⟨"msg-1", some ⟨"tx-123", "us-east-1", "transaction_created", 0, "d"⟩,
        "receipt-1"⟩,
       ⟨"msg-2", none, "receipt-2"⟩]) =
      (.ok [⟨"tx-123", "us-east-1", "transaction_created", 0, "d"⟩],
        [((LogLevel.warn : LogLevel), "Failed to unmarshal message")]) := by
  rfl

/-- C10: loading the non-secret configuration never fails: an unset or
empty variable yields its default, a non-integer APP_PORT or
COCKROACHDB_PORT silently falls back to its default, and a parsable
integer value is honored. -/
theorem loadConfig_total_with_defaults (env : Env) (n : Int) :
    (env "APP_PORT" = "" → (LoadConfig env).app.port = 8080) ∧
    (atoi? (env "APP_PORT") = none → (LoadConfig env).app.port = 8080) ∧
    (atoi? (env "APP_PORT") = some n → (LoadConfig env).app.port = n) ∧
    (env "COCKROACHDB_PORT" = "" → (LoadConfig env).database.port = 26257) ∧
    (atoi? (env "COCKROACHDB_PORT") = none →
      (LoadConfig env).database.port = 26257) ∧
    (atoi? (env "COCKROACHDB_PORT") = some n →
      (LoadConfig env).database.port = n) ∧
    (env "REGION" = "" → (LoadConfig env).app.region = "us-east-1") ∧
    (env "REGION" ≠ "" → (LoadConfig env).app.region = env "REGION") ∧
    (env "COCKROACHDB_HOST" = "" →
      (LoadConfig env).database.host = "cockroachdb-public") ∧
    (env "COCKROACHDB_DATABASE" = "" →
      (LoadConfig env).database.database = "ledger") ∧
    (env "AWS_REGION" = "" → (LoadConfig env).aws.region = "us-east-1") ∧
    (env "AWS_ENDPOINT" = "" →
      (LoadConfig env).aws.endpoint = "http://localhost:4566") ∧
    (env "S3_BUCKET" = "" →
      (LoadConfig env).aws.s3Bucket = "us-east-1-audit-logs") ∧
    (env "SQS_QUEUE" = "" →
      (LoadConfig env).aws.sqsQueue = "us-east-1-transaction-queue") := by
  refine ⟨fun h => ?_, fun h => ?_, fun h => ?_, fun h => ?_, fun h => ?_,
    fun h => ?_, fun h => ?_, fun h => ?_, fun h => ?_, fun h => ?_,
    fun h => ?_, fun h => ?_, fun h => ?_, fun h => ?_⟩ <;>
    first
      | (have hs := atoi?_ne_empty h
         simp [LoadConfig, getEnvInt, getEnv, h, hs])
      | simp [LoadConfig, getEnvInt, getEnv, h]

/-- Witness for C10: a non-integer APP_PORT falls back to 8080 while an
integer COCKROACHDB_PORT is honored, and unset variables keep their
defaults. -/
theorem loadConfig_total_with_defaults_witness :
    (LoadConfig (fun k => if k = "APP_PORT" then "abc"
        else if k = "COCKROACHDB_PORT" then "9999" else "")).app.port =
      8080 ∧
    (LoadConfig (fun k => if k = "APP_PORT" then "abc"
        else if k = "COCKROACHDB_PORT" then "9999" else "")).database.port =
      9999 ∧
    (LoadConfig (fun k => if k = "APP_PORT" then "abc"
        else if k = "COCKROACHDB_PORT" then "9999" else "")).app.region =
      "us-east-1" := by
  obtain ⟨-, hp, -, -, -, hdb, hr, -⟩ :=
    loadConfig_total_with_defaults
      (fun k => if k = "APP_PORT" then "abc"
        else if k = "COCKROACHDB_PORT" then "9999" else "") 9999
  exact ⟨hp (by decide), hdb (by decide), hr (by decide)⟩

end Ledger







